import Mathlib

/-!
A shallow embedding, in Lean 4, of the derived-metrics and similarity core of
the CSI dashboard repository: the three scorers of `src/utils/data_processor.py`
(`calculate_member_engagement`, `calculate_partnership_effectiveness`,
`analyze_program_performance`) and the similarity ranker
`find_similar_members` of `src/utils/recommender.py`, together with theorems
checking the specification's claims about them.

Modelling conventions:
* A pandas DataFrame is a structure whose fields are the columns the modeled
  functions read or write.  Column presence is table-level (as in pandas), so a
  column is an `Option (List _)`; a present column is a list whose length is
  the row count `nrows`.  Columns the code never touches are not modeled (the
  code copies them through unchanged).
* Dates are integers (days); `datetime.now()` is an explicit `now : ℤ`
  parameter, so `(now - d).dt.days` is exact integer arithmetic.
* Float arithmetic is idealized as exact rational arithmetic (`ℚ`).
  Python's `round` (banker's rounding) is idealized as Mathlib's `round`
  (half away from even only at exact ties, which no theorem here touches).
* A float division whose denominator is `0` produces a non-finite value
  (`NaN`, or `±inf` when the numerator is nonzero).  Cells that can be
  non-finite are `Option ℚ`, with `none` standing for any non-finite float;
  the modeled input tables have non-negative numerators wherever such a
  division occurs (interaction and join dates not in the future), so the
  distinction between `NaN` and `±inf` never matters.  Comparisons against a
  non-finite value are false, as numpy comparisons against `NaN` are.
* A raising Python function is embedded as `Except String _` whose error
  string names the exception; a function that only returns is embedded
  directly.  `None` inputs/outputs are `Option _`.
-/

deriving instance DecidableEq for Except

/-- Addition on possibly-non-finite floats: `none` (NaN) propagates. -/
def oadd : Option ℚ → Option ℚ → Option ℚ
  | some a, some b => some (a + b)
  | _, _ => none

/-- Rounding to one decimal place, `Series.round(1)`. -/
def round1 (q : ℚ) : ℚ := (round (q * 10) : ℤ) / 10

/-- Rounding to two decimal places, `Series.round(2)`. -/
def round2 (q : ℚ) : ℚ := (round (q * 100) : ℤ) / 100

/-- Maximum of a non-empty numeric column, `Series.max()` (`0` as junk value on an
empty column, which the callers never hit: they return early on empty
tables). -/
def seriesMax : List ℚ → ℚ
  | [] => 0
  | x :: xs => xs.foldl max x

/-- Pointwise combination of four columns of equal length (the columnar
arithmetic of `engagement_score`). -/
def zip4With (f : α → β → γ → δ → ε) : List α → List β → List γ → List δ → List ε
  | a :: as, b :: bs, c :: cs, d :: ds => f a b c d :: zip4With f as bs cs ds
  | _, _, _, _ => []

/-! Member tables and `calculate_member_engagement`
(`src/utils/data_processor.py`, lines 221-290) -/

/-- A membership DataFrame: the columns read or written by
`calculate_member_engagement` and `find_similar_members`.  The last three
fields are the derived columns, which a raw upload may nevertheless already
contain (the sample data has an `engagement_level` column, and the similarity
ranker's allow-list includes `engagement_score` and `engagement_level`). -/
structure MemberTable where
  nrows : ℕ
  member_id : Option (List ℕ) := none
  name : Option (List String) := none
  membership_type : Option (List String) := none
  industry : Option (List String) := none
  location : Option (List String) := none
  last_interaction : Option (List ℤ) := none
  attendance_rate : Option (List ℚ) := none
  satisfaction_score : Option (List ℚ) := none
  membership_duration_days : Option (List ℚ) := none
  fees_paid : Option (List ℚ) := none
  days_since_interaction : Option (List ℚ) := none
  engagement_score : Option (List (Option ℚ)) := none
  engagement_level : Option (List String) := none
deriving DecidableEq

/-- Lines 237-240: `days_since_interaction` is `(now - last_interaction).dt.days`
when the column exists, else the scalar default `30` broadcast to the table. -/
def daysCol (now : ℤ) (t : MemberTable) : List ℚ :=
  match t.last_interaction with
  | some li => li.map (fun d => ((now - d : ℤ) : ℚ))
  | none => List.replicate t.nrows 30

/-- Lines 254-257: attendance sub-score, neutral default `0.5` when the
column is missing. -/
def attCol (t : MemberTable) : List ℚ :=
  match t.attendance_rate with
  | some a => a
  | none => List.replicate t.nrows 0.5

/-- Lines 259-262: satisfaction sub-score `satisfaction_score / 10`, neutral
default `0.5` when the column is missing. -/
def satCol (t : MemberTable) : List ℚ :=
  match t.satisfaction_score with
  | some s => s.map (· / 10)
  | none => List.replicate t.nrows 0.5

/-- Line 265: `1 - days_since_interaction / days_since_interaction.max()`;
the division is non-finite when the maximum is `0`. -/
def recencyCol (now : ℤ) (t : MemberTable) : List (Option ℚ) :=
  let days := daysCol now t
  let dmax := seriesMax days
  days.map (fun d => if dmax = 0 then none else some (1 - d / dmax))

/-- Line 268: `membership_duration_days / membership_duration_days.max()`;
the division is non-finite when the maximum is `0`. -/
def loyaltyCol (dur : List ℚ) : List (Option ℚ) :=
  let lmax := seriesMax dur
  dur.map (fun d => if lmax = 0 then none else some (d / lmax))

/-- Lines 248-276: the weighted sum of the four sub-scores for one row. -/
def engagementRow (a s : ℚ) : Option ℚ → Option ℚ → Option ℚ
  | some r, some l => some (0.3 * a + 0.3 * s + 0.2 * r + 0.2 * l)
  | _, _ => none

/-- Lines 271-279: the `engagement_score` column, scaled to 0-100 and rounded
to one decimal. -/
def scoreCol (now : ℤ) (t : MemberTable) (dur : List ℚ) : List (Option ℚ) :=
  (zip4With engagementRow (attCol t) (satCol t) (recencyCol now t) (loyaltyCol dur)).map
    (Option.map (fun q => round1 (q * 100)))

/-- Lines 282-288: `np.select` on the score thresholds; every comparison
against a non-finite score is false, so such rows take the default bucket. -/
def engagement_level_of : Option ℚ → String
  | some q => if 75 ≤ q then "High" else if 50 ≤ q then "Medium"
      else if 25 ≤ q then "Low" else "Very Low"
  | none => "Very Low"

/-- The successful path of `calculate_member_engagement`: `.copy()` plus the
three derived columns. -/
def engageTable (now : ℤ) (t : MemberTable) (dur : List ℚ) : MemberTable :=
  { t with days_since_interaction := some (daysCol now t),
           engagement_score := some (scoreCol now t dur),
           engagement_level := some ((scoreCol now t dur).map engagement_level_of) }

/-- Function `calculate_member_engagement` (lines 221-290).  Returns `none` on a `None`
or empty input (line 231); reading the `membership_duration_days` column
unconditionally at line 268 raises a `KeyError` when it is absent. -/
def calculate_member_engagement (now : ℤ) (md : Option MemberTable) :
    Except String (Option MemberTable) :=
  match md with
  | none => .ok none
  | some t =>
    if t.nrows = 0 then .ok none
    else
      match t.membership_duration_days with
      | none => .error "KeyError: membership_duration_days"
      | some dur => .ok (some (engageTable now t dur))

/-! Partnership tables and `calculate_partnership_effectiveness`
(`src/utils/data_processor.py`, lines 292-342) -/

/-- A partnership DataFrame: the columns read or written by
`calculate_partnership_effectiveness`; the last four fields are its derived
columns. -/
structure PartnershipTable where
  nrows : ℕ
  partner_id : Option (List ℕ) := none
  name : Option (List String) := none
  start_date : Option (List ℤ) := none
  end_date : Option (List ℤ) := none
  value_contribution : Option (List ℚ) := none
  cost : Option (List ℚ) := none
  performance_rating : Option (List ℚ) := none
  alignment_score : Option (List ℚ) := none
  partnership_duration : Option (List ℚ) := none
  roi : Option (List (Option ℚ)) := none
  effectiveness_score : Option (List ℚ) := none
  effectiveness_category : Option (List String) := none
deriving DecidableEq

/-- Lines 308-313: `(end_date - start_date).dt.days`, overwritten with
`(today - start_date).dt.days` on the rows whose `end_date` is after today. -/
def durationCol (now : ℤ) (s e : List ℤ) : List ℚ :=
  List.zipWith (fun sd ed => if now < ed then ((now - sd : ℤ) : ℚ) else ((ed - sd : ℤ) : ℚ)) s e

/-- Lines 316-320: `roi`, `(value_contribution - cost)/cost` when both columns
exist (non-finite on a zero cost), `value_contribution / 5000` when only the
value exists, and the column left untouched otherwise. -/
def roiCol (t : PartnershipTable) : Option (List (Option ℚ)) :=
  match t.value_contribution, t.cost with
  | some v, some c => some (List.zipWith (fun vv cc => if cc = 0 then none else some ((vv - cc) / cc)) v c)
  | some v, none => some (v.map (fun vv => some (vv / 5000)))
  | none, _ => t.roi

/-- Lines 322-331: `effectiveness_score`, the average of the two ratings when
both columns exist, the one that exists otherwise, and the scalar default `5`
broadcast to the table when neither does. -/
def effCol (t : PartnershipTable) : List ℚ :=
  match t.performance_rating, t.alignment_score with
  | some p, some a => List.zipWith (fun x y => (x + y) / 2) p a
  | some p, none => p
  | none, some a => a
  | none, none => List.replicate t.nrows 5

/-- Lines 333-340: `np.select` on the effectiveness thresholds. -/
def effectiveness_category_of (q : ℚ) : String :=
  if 8 ≤ q then "High" else if 6 ≤ q then "Medium" else if 4 ≤ q then "Low" else "Very Low"

/-- The successful path of `calculate_partnership_effectiveness`: `.copy()`
plus the derived columns. -/
def effectTable (now : ℤ) (t : PartnershipTable) : PartnershipTable :=
  { t with
    partnership_duration :=
      match t.start_date, t.end_date with
      | some s, some e => some (durationCol now s e)
      | _, _ => t.partnership_duration,
    roi := roiCol t,
    effectiveness_score := some (effCol t),
    effectiveness_category := some ((effCol t).map effectiveness_category_of) }

/-- Function `calculate_partnership_effectiveness` (lines 292-342).  Returns `none` on
a `None` or empty input (line 302); otherwise `.copy()` plus the derived
columns.  No unguarded column read occurs, so the function never raises. -/
def calculate_partnership_effectiveness (now : ℤ) (pd : Option PartnershipTable) :
    Option PartnershipTable :=
  match pd with
  | none => none
  | some t =>
    if t.nrows = 0 then none
    else some (effectTable now t)

/-! Program tables and `analyze_program_performance`
(`src/utils/data_processor.py`, lines 344-408) -/

/-- A program DataFrame: the columns read or written by
`analyze_program_performance`; the last four fields are its derived columns. -/
structure ProgramTable where
  nrows : ℕ
  program_id : Option (List ℕ) := none
  name : Option (List String) := none
  capacity : Option (List ℚ) := none
  current_enrollment : Option (List ℚ) := none
  satisfaction_score : Option (List ℚ) := none
  success_metric : Option (List ℚ) := none
  budget : Option (List ℚ) := none
  expenses : Option (List ℚ) := none
  enrollment_rate : Option (List (Option ℚ)) := none
  budget_utilization : Option (List (Option ℚ)) := none
  performance_score : Option (List (Option ℚ)) := none
  performance_category : Option (List String) := none
deriving DecidableEq

/-- Lines 360-361: `enrollment_rate = (current_enrollment / capacity).round(2)`
when both columns exist (non-finite on a zero capacity); otherwise the column
is left untouched. -/
def erCol (t : ProgramTable) : Option (List (Option ℚ)) :=
  match t.capacity, t.current_enrollment with
  | some cap, some cur =>
      some (List.zipWith (fun e c => if c = 0 then none else some (round2 (e / c))) cur cap)
  | _, _ => t.enrollment_rate

/-- Lines 364-365: `budget_utilization = (expenses / budget).round(2)` when
both columns exist (non-finite on a zero budget); otherwise the column is left
untouched. -/
def buCol (t : ProgramTable) : Option (List (Option ℚ)) :=
  match t.budget, t.expenses with
  | some b, some e =>
      some (List.zipWith (fun ex bu => if bu = 0 then none else some (round2 (ex / bu))) e b)
  | _, _ => t.budget_utilization

/-- A table-level `Option` column seen row by row: outer `none` = "column
absent in this row" for every row. -/
def colRows (n : ℕ) : Option (List (Option ℚ)) → List (Option (Option ℚ))
  | some l => l.map some
  | none => List.replicate n none

/-- Same for a column without non-finite cells. -/
def colRowsQ (n : ℕ) : Option (List ℚ) → List (Option ℚ)
  | some l => l.map some
  | none => List.replicate n none

/-- Lines 368-388: the `performance_metrics` / `weights` pairs actually
appended for one row, in the source's order (enrollment 0.3, satisfaction/10
0.4, success 0.3, budget closeness `1 - |budget_utilization - 1|` 0.2); an
absent column contributes nothing. -/
def metricsRow (er : Option (Option ℚ)) (sat suc : Option ℚ) (bu : Option (Option ℚ)) :
    List (Option ℚ × ℚ) :=
  (match er with | some e => [(e, 0.3)] | none => []) ++
  (match sat with | some s => [(some (s / 10), 0.4)] | none => []) ++
  (match suc with | some s => [(some s, 0.3)] | none => []) ++
  (match bu with | some b => [(b.map (fun x => 1 - |x - 1|), 0.2)] | none => [])

/-- Lines 390-397: `sum(metric * (weight / total_weight)) * 100` over the
available metrics, or the scalar default `50` when none are available. -/
def performanceRow (er : Option (Option ℚ)) (sat suc : Option ℚ) (bu : Option (Option ℚ)) :
    Option ℚ :=
  match metricsRow er sat suc bu with
  | [] => some 50
  | _ :: _ =>
    let ms := metricsRow er sat suc bu
    let total := (ms.map Prod.snd).sum
    ((ms.map (fun mw => mw.1.map (· * (mw.2 / total)))).foldl oadd (some 0)).map (· * 100)

/-- The `performance_score` column, computed from the table as it stands after
the `enrollment_rate` / `budget_utilization` steps. -/
def performanceScoreCol (t : ProgramTable) : List (Option ℚ) :=
  zip4With performanceRow (colRows t.nrows t.enrollment_rate)
    (colRowsQ t.nrows t.satisfaction_score) (colRowsQ t.nrows t.success_metric)
    (colRows t.nrows t.budget_utilization)

/-- Lines 400-406: `np.select` on the performance thresholds; comparisons
against a non-finite score are false, giving the default bucket. -/
def performance_category_of : Option ℚ → String
  | some q => if 80 ≤ q then "High" else if 60 ≤ q then "Medium"
      else if 40 ≤ q then "Low" else "Very Low"
  | none => "Very Low"

/-- The successful path of `analyze_program_performance`: `.copy()` plus the
derived columns, the performance score being read off the table after the
rate/utilization columns were (possibly) added. -/
def performTable (t : ProgramTable) : ProgramTable :=
  let t' := { t with enrollment_rate := erCol t, budget_utilization := buCol t }
  { t' with
    performance_score := some (performanceScoreCol t'),
    performance_category := some ((performanceScoreCol t').map performance_category_of) }

/-- Function `analyze_program_performance` (lines 344-408).  Returns `none` on a `None`
or empty input (line 354); otherwise `.copy()` plus the derived columns.  No
unguarded column read occurs, so the function never raises. -/
def analyze_program_performance (pd : Option ProgramTable) : Option ProgramTable :=
  match pd with
  | none => none
  | some t =>
    if t.nrows = 0 then none
    else some (performTable t)

/-! Similarity ranker `find_similar_members` (`src/utils/recommender.py`, lines 379-456)

`StandardScaler` and `cosine_similarity` live in `ℝ` (square roots), so the
similarity value is embedded up to a strictly increasing change of scale that
keeps it in `ℚ`: see `simProxy`.  Every claim about the ranker concerns only
comparisons between similarity scores, row counts and row identities, all of
which are invariant under that change of scale. -/

/-- One row of the frame built at lines 444-449. -/
structure SimRow where
  member_id : ℕ
  name : String
  similarity_score : ℚ
deriving DecidableEq

/-- Lines 398-411: the numeric allow-list features present in the table, in
the source's order, seen at row `i`.  A non-finite `engagement_score` cell
never reaches a similarity value: `find_similar_members` raises before using
the matrix (see `simFeatureNaN`). -/
def numericFeatures (t : MemberTable) (i : ℕ) : List ℚ :=
  (match t.satisfaction_score with | some l => [l.getD i 0] | none => []) ++
  (match t.attendance_rate with | some l => [l.getD i 0] | none => []) ++
  (match t.engagement_score with | some l => [(l.getD i none).getD 0] | none => []) ++
  (match t.membership_duration_days with | some l => [l.getD i 0] | none => []) ++
  (match t.fees_paid with | some l => [l.getD i 0] | none => [])

/-- Encoding `pd.get_dummies` of one categorical column, seen at row `i`: one `0/1`
feature per distinct value of the column.  (`get_dummies` orders the dummy
columns by sorted value; every statistic computed below is invariant under
permuting feature columns, so first-occurrence order is an equivalent
embedding.) -/
def oneHot (vals : List String) (i : ℕ) : List ℚ :=
  vals.dedup.map (fun c => if vals.getD i "" = c then 1 else 0)

/-- Lines 403-422: the one-hot encodings of the categorical allow-list
columns present in the table, in the source's order, seen at row `i`. -/
def categoricalFeatures (t : MemberTable) (i : ℕ) : List ℚ :=
  (match t.membership_type with | some l => oneHot l i | none => []) ++
  (match t.industry with | some l => oneHot l i | none => []) ++
  (match t.engagement_level with | some l => oneHot l i | none => []) ++
  (match t.location with | some l => oneHot l i | none => [])

/-- Line 429: the feature vector of row `i`. -/
def featureRow (t : MemberTable) (i : ℕ) : List ℚ :=
  numericFeatures t i ++ categoricalFeatures t i

/-- Line 429: the feature matrix `X`, row-major. -/
def featureMatrix (t : MemberTable) : List (List ℚ) :=
  (List.range t.nrows).map (featureRow t)

/-- Line 425: whether `feature_columns` is non-empty.  On a non-empty table a
present categorical column contributes at least one dummy column, so this is
exactly the presence of any allow-list column. -/
def hasFeatureColumns (t : MemberTable) : Bool :=
  t.satisfaction_score.isSome || t.attendance_rate.isSome || t.engagement_score.isSome ||
  t.membership_duration_days.isSome || t.fees_paid.isSome || t.membership_type.isSome ||
  t.industry.isSome || t.engagement_level.isSome || t.location.isSome

/-- Whether the feature matrix holds a non-finite cell; only the
`engagement_score` column can.  `StandardScaler` passes such a cell through
and `cosine_similarity` (line 436) then rejects the matrix with a
`ValueError`, before the `name` column is ever read. -/
def simFeatureNaN (t : MemberTable) : Bool :=
  match t.engagement_score with
  | some l => l.any (·.isNone)
  | none => false

/-- Column sums of a row-major matrix with `m` columns. -/
def vsum (m : ℕ) (rows : List (List ℚ)) : List ℚ :=
  rows.foldl (List.zipWith (· + ·)) (List.replicate m 0)

/-- Per-column means, `StandardScaler.fit` (lines 432-433). -/
def colMeans (t : MemberTable) : List ℚ :=
  (vsum (featureRow t 0).length (featureMatrix t)).map (· / (t.nrows : ℚ))

/-- The mean-centered feature matrix. -/
def centeredMatrix (t : MemberTable) : List (List ℚ) :=
  (featureMatrix t).map (fun r => List.zipWith (· - ·) r (colMeans t))

/-- Per-column population variances of `StandardScaler.fit` (`ddof = 0`), a zero
variance replaced by `1` exactly as `StandardScaler` does for constant
columns (its `scale_` for them is `1`). -/
def colVars (t : MemberTable) : List ℚ :=
  ((vsum (featureRow t 0).length
      ((centeredMatrix t).map (fun r => r.map (fun x => x * x)))).map (· / (t.nrows : ℚ))).map
    (fun v => if v = 0 then 1 else v)

/-- The sum `Σ x_j * y_j / var_j`: the inner product of two mean-centered rows after
dividing each coordinate by its column's standard deviation (the squares of
the standard deviations being the entries of `w`). -/
def scaledDot : List ℚ → List ℚ → List ℚ → ℚ
  | v :: vs, x :: xs, y :: ys => x * y / v + scaledDot vs xs ys
  | _, _, _ => 0

/-- Line 436, `cosine_similarity` of two standardized rows, recorded up to the
strictly increasing map `t ↦ sign(t) * t²`: the true cosine is
`S / (√N(x) * √N(y))` with `S = scaledDot w x y` and `N(z) = scaledDot w z z`,
and this proxy is `sign(S) * S² / (N(x) * N(y))`, with `0` for a zero vector
exactly as `cosine_similarity` yields `0` there.  Both values induce the same
comparisons between similarity scores. -/
def simProxy (w x y : List ℚ) : ℚ :=
  let s := scaledDot w x y
  let nx := scaledDot w x x
  let ny := scaledDot w y y
  if nx = 0 ∨ ny = 0 then 0
  else if s < 0 then -(s * s / (nx * ny)) else s * s / (nx * ny)

/-- Line 439, `df[df['member_id'] == member_id].index[0]`: the index of the
first row carrying the target identifier. -/
def firstIdx : List ℕ → ℕ → ℕ
  | [], _ => 0
  | x :: xs, m => if x = m then 0 else firstIdx xs m + 1

/-- Line 442: the target member's row of the similarity matrix. -/
def simScores (t : MemberTable) (mid : ℕ) : List ℚ :=
  let c := centeredMatrix t
  let w := colVars t
  let tgt := c.getD (firstIdx (t.member_id.getD []) mid) []
  c.map (fun r => simProxy w tgt r)

/-- Lines 444-449: the `member_id` / `name` / `similarity_score` frame. -/
def similarityRows (ids : List ℕ) (names : List String) (sims : List ℚ) : List SimRow :=
  (ids.zip (names.zip sims)).map (fun p => ⟨p.1, p.2.1, p.2.2⟩)

/-- Lines 451-453: drop the target's rows and sort by similarity score
descending (`sort_values` is an unstable sort, so tie order is unspecified
there; a merge sort realizes one admissible order). -/
def rankedRows (t : MemberTable) (ids : List ℕ) (names : List String) (mid : ℕ) : List SimRow :=
  ((similarityRows ids names (simScores t mid)).filter (fun r => r.member_id ≠ mid)).mergeSort
    (fun a b => decide (b.similarity_score ≤ a.similarity_score))

/-- Function `find_similar_members` (lines 379-456).  The guard at line 391 evaluates
left to right (`None`, emptiness, then the `member_id` lookup, which raises on
a non-empty table without that column); an empty `feature_columns` returns an
empty frame at line 425; a non-finite feature cell is rejected by
`cosine_similarity` with a `ValueError`; reading the absent `name` column at
line 447 raises a `KeyError`; otherwise the top `k` rows by similarity,
target excluded, are returned (line 456). -/
def find_similar_members (md : Option MemberTable) (mid : ℕ) (k : ℕ) :
    Except String (List SimRow) :=
  match md with
  | none => .ok []
  | some t =>
    if t.nrows = 0 then .ok []
    else
      match t.member_id with
      | none => .error "KeyError: member_id"
      | some ids =>
        if mid ∈ ids then
          if hasFeatureColumns t then
            if simFeatureNaN t then .error "ValueError: Input contains NaN"
            else
              match t.name with
              | none => .error "KeyError: name"
              | some names => .ok ((rankedRows t ids names mid).take k)
          else .ok []
        else .ok []

example : calculate_member_engagement 0 none = .ok none := rfl

example :
    calculate_member_engagement 1000
      (some { nrows := 1, attendance_rate := some [1], satisfaction_score := some [10],
              last_interaction := some [990], membership_duration_days := some [100] }) =
    .ok (some { nrows := 1, attendance_rate := some [1], satisfaction_score := some [10],
                last_interaction := some [990], membership_duration_days := some [100],
                days_since_interaction := some [10],
                engagement_score := some [some 80],
                engagement_level := some ["High"] }) := by
  norm_num [calculate_member_engagement, engageTable, daysCol, attCol, satCol, recencyCol,
    loyaltyCol, scoreCol, zip4With, engagementRow, seriesMax, engagement_level_of, round1,
    round_eq]

/-- Spec-side definition, the refinement target of claim C5, following the
spec's words: "Weights actually present are renormalized to sum to 1 before
combining (weighted average, not a fixed-denominator sum), then the result is
scaled ×100.  If no sub-metric is available, default performance_score = 50
(neutral)." -/
def specWeightedAverage (ms : List (Option ℚ × ℚ)) : Option ℚ :=
  match ms with
  | [] => some 50
  | _ :: _ =>
    (((ms.map (fun mw => mw.1.map (· * mw.2))).foldl oadd (some 0)).map
      (· / (ms.map Prod.snd).sum)).map (· * 100)

/-! Theorems -/

theorem foldl_max_replicate (c : ℚ) : ∀ m : ℕ, (List.replicate m c).foldl max c = c := by
  intro m
  induction m with
  | zero => rfl
  | succ m ih => simpa [List.replicate_succ, max_self] using ih

theorem seriesMax_replicate {n : ℕ} (h : 0 < n) (c : ℚ) :
    seriesMax (List.replicate n c) = c := by
  cases n with
  | zero => omega
  | succ m => simpa [List.replicate_succ, seriesMax] using foldl_max_replicate c m

theorem zip4With_replicate (f : α → β → γ → δ → ε) (a : α) (b : β) (c : γ) :
    ∀ (ds : List δ) (n : ℕ), ds.length = n →
      zip4With f (List.replicate n a) (List.replicate n b) (List.replicate n c) ds
        = ds.map (fun d => f a b c d) := by
  intro ds
  induction ds with
  | nil =>
    intro n hn
    subst hn
    rfl
  | cons d ds ih =>
    intro n hn
    cases n with
    | zero => simp at hn
    | succ m =>
      simp only [List.replicate_succ, zip4With, List.map_cons]
      rw [ih m (by simpa using hn)]

/-- Claim C1 (amended).  Only the attendance and satisfaction sub-scores take
the neutral default `0.5` when their source column is missing.  When
`last_interaction` is missing the scorer instead sets every
`days_since_interaction` to the default `30`, which drives the recency
sub-score of every row to `1 - 30/30 = 0`, not `0.5`; and
`membership_duration_days` has no default at all: when it is missing the
scorer raises a `KeyError` instead of succeeding. -/
theorem C1_engagement_defaults :
    (∀ (now : ℤ) (t : MemberTable), 0 < t.nrows → t.membership_duration_days = none →
      calculate_member_engagement now (some t) = .error "KeyError: membership_duration_days") ∧
    (∀ (now : ℤ) (t : MemberTable) (dur : List ℚ), 0 < t.nrows →
      t.membership_duration_days = some dur → dur.length = t.nrows →
      t.last_interaction = none → t.attendance_rate = none → t.satisfaction_score = none →
      calculate_member_engagement now (some t) = .ok (some (engageTable now t dur)) ∧
      (engageTable now t dur).days_since_interaction =
        some (List.replicate t.nrows (30 : ℚ)) ∧
      (engageTable now t dur).engagement_score =
        some (dur.map (fun d =>
          if seriesMax dur = 0 then none
          else some (round1 ((0.3 * 0.5 + 0.3 * 0.5 + 0.2 * 0 + 0.2 * (d / seriesMax dur))
            * 100))))) := by
  constructor
  · intro now t h0 hdur
    have hne : t.nrows ≠ 0 := by omega
    simp [calculate_member_engagement, hdur, hne]
  · intro now t dur h0 hdur hlen hli hatt hsat
    have hne : t.nrows ≠ 0 := by omega
    refine ⟨?_, ?_, ?_⟩
    · simp [calculate_member_engagement, hdur, hne]
    · simp [engageTable, daysCol, hli]
    · simp only [engageTable]
      congr 1
      simp only [scoreCol, recencyCol, attCol, satCol, daysCol, loyaltyCol, hli, hatt, hsat]
      rw [seriesMax_replicate h0 (30 : ℚ)]
      have h30 : (30 : ℚ) ≠ 0 := by norm_num
      simp only [h30, if_false, List.map_replicate]
      norm_num
      rw [zip4With_replicate engagementRow _ _ _
        (dur.map (fun d => if seriesMax dur = 0 then none else some (d / seriesMax dur)))
        t.nrows (by simpa using hlen), List.map_map, List.map_map]
      apply List.map_congr_left
      intro d _
      by_cases hz : seriesMax dur = 0
      · simp [hz, engagementRow]
      · simp [hz, engagementRow]
        congr 1
        ring

/-- Claim C1, counterexample.  On a one-row table carrying `attendance_rate`,
`satisfaction_score` and `last_interaction` but no `membership_duration_days`
column, `calculate_member_engagement` raises a `KeyError` instead of
succeeding with a neutral `0.5` loyalty sub-score as the claim states. -/
theorem C1_counterexample :
    calculate_member_engagement 0
      (some { nrows := 1, attendance_rate := some [0.8], satisfaction_score := some [7],
              last_interaction := some [0] }) =
    .error "KeyError: membership_duration_days" := rfl

theorem C1_witness :
    calculate_member_engagement 5
      (some { nrows := 1, attendance_rate := some [0.8], satisfaction_score := some [7],
              last_interaction := some [-3] }) =
      .error "KeyError: membership_duration_days" ∧
    calculate_member_engagement 5
      (some { nrows := 1, membership_duration_days := some [100] }) =
      .ok (some (engageTable 5 { nrows := 1, membership_duration_days := some [100] } [100])) :=
  ⟨C1_engagement_defaults.1 5 _ (by norm_num) rfl,
   (C1_engagement_defaults.2 5 _ [100] (by norm_num) rfl rfl rfl rfl rfl).1⟩

/-- Claim C2 (code bug).  On a one-row table whose only interaction happened
"today" (`days_since_interaction = 0`, hence a zero normalization
denominator), the recency division is `0/0` and the unguarded source
propagates the non-finite value into `engagement_score`, which also drags the
row into the default `"Very Low"` bucket; the spec mandates a guard yielding
recency `1.0` and a well-defined score.  The same happens to the loyalty
sub-score on a second table whose only `membership_duration_days` is `0`. -/
theorem C2_unguarded_zero_denominator :
    (calculate_member_engagement 0
        (some { nrows := 1, attendance_rate := some [1], satisfaction_score := some [10],
                last_interaction := some [0], membership_duration_days := some [100] }) =
      .ok (some (engageTable 0
        { nrows := 1, attendance_rate := some [1], satisfaction_score := some [10],
          last_interaction := some [0], membership_duration_days := some [100] } [100])) ∧
     (engageTable 0
        { nrows := 1, attendance_rate := some [1], satisfaction_score := some [10],
          last_interaction := some [0], membership_duration_days := some [100] }
        [100]).engagement_score = some [none] ∧
     (engageTable 0
        { nrows := 1, attendance_rate := some [1], satisfaction_score := some [10],
          last_interaction := some [0], membership_duration_days := some [100] }
        [100]).engagement_level = some ["Very Low"]) ∧
    ((engageTable 10
        { nrows := 1, attendance_rate := some [1], satisfaction_score := some [10],
          last_interaction := some [0], membership_duration_days := some [0] }
        [0]).engagement_score = some [none]) := by
  refine ⟨⟨rfl, ?_, ?_⟩, ?_⟩ <;>
    norm_num [engageTable, scoreCol, recencyCol, loyaltyCol, attCol, satCol, daysCol,
      seriesMax, zip4With, engagementRow, engagement_level_of]

/-- Claim C3 (confirmed).  On every successful output of
`calculate_member_engagement`, each row's `engagement_level` is the crisp
threshold bucket of its `engagement_score`, boundary values falling in the
higher bucket: `score ≥ 75 → "High"`, `50 ≤ score < 75 → "Medium"`,
`25 ≤ score < 50 → "Low"`, `score < 25 → "Very Low"`. -/
theorem C3_engagement_level_thresholds (now : ℤ) (t u : MemberTable)
    (h : calculate_member_engagement now (some t) = .ok (some u))
    (scores : List (Option ℚ)) (levels : List String)
    (hs : u.engagement_score = some scores) (hl : u.engagement_level = some levels)
    (i : ℕ) (q : ℚ) (hq : scores[i]? = some (some q)) :
    (75 ≤ q → levels[i]? = some "High") ∧
    (50 ≤ q → q < 75 → levels[i]? = some "Medium") ∧
    (25 ≤ q → q < 50 → levels[i]? = some "Low") ∧
    (q < 25 → levels[i]? = some "Very Low") := by
  have hu : ∃ dur, u = engageTable now t dur := by
    unfold calculate_member_engagement at h
    rcases hmd : t.membership_duration_days with _ | dur <;>
      rcases hz : t.nrows with _ | m <;>
      simp [hmd, hz] at h <;>
      exact ⟨_, h.symm⟩
  rcases hu with ⟨dur, rfl⟩
  simp only [engageTable] at hs hl
  have hsc : scores = scoreCol now t dur := by
    simpa using hs.symm
  have hlv : levels = (scoreCol now t dur).map engagement_level_of := by
    simpa using hl.symm
  subst hsc hlv
  have hlvl : ((scoreCol now t dur).map engagement_level_of)[i]? =
      some (engagement_level_of (some q)) := by
    rw [List.getElem?_map, hq]
    rfl
  rw [hlvl]
  simp only [engagement_level_of]
  refine ⟨fun h1 => ?_, fun h1 h2 => ?_, fun h1 h2 => ?_, fun h1 => ?_⟩ <;>
    split_ifs with a b c <;> first | rfl | (exfalso; linarith)

theorem C3_witness :
    ((scoreCol 1000
        { nrows := 1, attendance_rate := some [1], satisfaction_score := some [10],
          last_interaction := some [990], membership_duration_days := some [100] }
        [100]).map engagement_level_of)[0]? = some "High" := by
  have hq : (scoreCol 1000
      { nrows := 1, attendance_rate := some [1], satisfaction_score := some [10],
        last_interaction := some [990], membership_duration_days := some [100] }
      [100])[0]? = some (some 80) := by
    norm_num [scoreCol, recencyCol, loyaltyCol, attCol, satCol, daysCol, seriesMax,
      zip4With, engagementRow, round1, round_eq]
  have h : calculate_member_engagement 1000
      (some { nrows := 1, attendance_rate := some [1], satisfaction_score := some [10],
              last_interaction := some [990], membership_duration_days := some [100] }) =
      .ok (some (engageTable 1000
        { nrows := 1, attendance_rate := some [1], satisfaction_score := some [10],
          last_interaction := some [990], membership_duration_days := some [100] } [100])) := rfl
  exact (C3_engagement_level_thresholds 1000 _ _ h _ _ rfl rfl 0 80 hq).1 (by norm_num)

/-- A member of a pointwise average of two columns whose entries lie in
`[1, 10]` lies in `[1, 10]` itself. -/
theorem mem_zipWith_avg (p a : List ℚ) :
    ∀ q ∈ List.zipWith (fun x y => (x + y) / 2) p a,
      ∃ x ∈ p, ∃ y ∈ a, q = (x + y) / 2 := by
  induction p generalizing a with
  | nil => simp
  | cons x xs ih =>
    intro q hq
    cases a with
    | nil => simp at hq
    | cons y ys =>
      simp only [List.zipWith_cons_cons, List.mem_cons] at hq
      rcases hq with rfl | hq
      · exact ⟨x, by simp, y, by simp, rfl⟩
      · rcases ih ys q hq with ⟨x', hx', y', hy', rfl⟩
        exact ⟨x', by simp [hx'], y', by simp [hy'], rfl⟩

/-- Claim C4 (confirmed).  `calculate_partnership_effectiveness` sets
`effectiveness_score` to the rowwise average of `performance_rating` and
`alignment_score` when both columns exist, to the one that exists when only
one does, and to the broadcast neutral default `5` when neither does; and
when both exist with every rating in `[1, 10]`, every effectiveness score lies
in `[1, 10]`. -/
theorem C4_effectiveness_score (now : ℤ) (t u : PartnershipTable)
    (h : calculate_partnership_effectiveness now (some t) = some u) :
    (∀ p a, t.performance_rating = some p → t.alignment_score = some a →
      u.effectiveness_score = some (List.zipWith (fun x y => (x + y) / 2) p a) ∧
      ((∀ x ∈ p, 1 ≤ x ∧ x ≤ 10) → (∀ y ∈ a, 1 ≤ y ∧ y ≤ 10) →
        ∀ q ∈ List.zipWith (fun x y : ℚ => (x + y) / 2) p a, 1 ≤ q ∧ q ≤ 10)) ∧
    (∀ p, t.performance_rating = some p → t.alignment_score = none →
      u.effectiveness_score = some p) ∧
    (∀ a, t.performance_rating = none → t.alignment_score = some a →
      u.effectiveness_score = some a) ∧
    (t.performance_rating = none → t.alignment_score = none →
      u.effectiveness_score = some (List.replicate t.nrows 5)) := by
  have hu : u.effectiveness_score = some (effCol t) := by
    by_cases hz : t.nrows = 0
    · simp [calculate_partnership_effectiveness, hz] at h
    · simp [calculate_partnership_effectiveness, hz] at h
      simp [← h, effectTable]
  refine ⟨?_, ?_, ?_, ?_⟩
  · intro p a hp ha
    refine ⟨by simp [hu, effCol, hp, ha], ?_⟩
    intro hpb hab q hq
    rcases mem_zipWith_avg p a q hq with ⟨x, hx, y, hy, rfl⟩
    rcases hpb x hx with ⟨hx1, hx10⟩
    rcases hab y hy with ⟨hy1, hy10⟩
    constructor <;> [linarith; linarith]
  · intro p hp ha
    simp [hu, effCol, hp, ha]
  · intro a hp ha
    simp [hu, effCol, hp, ha]
  · intro hp ha
    simp [hu, effCol, hp, ha]

theorem C4_witness :
    ((calculate_partnership_effectiveness 0
        (some { nrows := 2, performance_rating := some [2, 9],
                alignment_score := some [4, 5] })).getD { nrows := 0 }).effectiveness_score =
      some (List.zipWith (fun x y : ℚ => (x + y) / 2) [2, 9] [4, 5]) ∧
    (1 ≤ (3 : ℚ) ∧ (3 : ℚ) ≤ 10) := by
  rcases hc : calculate_partnership_effectiveness 0
      (some { nrows := 2, performance_rating := some [2, 9],
              alignment_score := some [4, 5] }) with _ | u
  · simp [calculate_partnership_effectiveness] at hc
  · have h4 := (C4_effectiveness_score 0 _ u hc).1 [2, 9] [4, 5] rfl rfl
    refine ⟨by simpa using h4.1, ?_⟩
    exact h4.2 (by norm_num) (by norm_num) 3 (by norm_num)

theorem zip4With_congr (f g : α → β → γ → δ → ε)
    (h : ∀ a b c d, f a b c d = g a b c d) :
    ∀ (as' : List α) (bs : List β) (cs : List γ) (ds : List δ),
      zip4With f as' bs cs ds = zip4With g as' bs cs ds := by
  intro as' 
  induction as' with
  | nil => intro bs cs ds; cases bs <;> cases cs <;> cases ds <;> rfl
  | cons a as' ih =>
    intro bs cs ds
    cases bs <;> cases cs <;> cases ds <;> simp [zip4With, h, ih]

/-- The rowwise `performance_score` of the source (each available metric
multiplied by `weight / total_weight`, summed, scaled by 100) equals the
spec's renormalized weighted average (weighted sum divided by the sum of the
available weights, scaled by 100), with the default `50` when no metric is
available. -/
theorem performanceRow_eq_spec :
    ∀ (er : Option (Option ℚ)) (sat suc : Option ℚ) (bu : Option (Option ℚ)),
      performanceRow er sat suc bu = specWeightedAverage (metricsRow er sat suc bu) := by
  intro er sat suc bu
  rcases er with _ | (_ | e) <;> rcases sat with _ | s <;> rcases suc with _ | c <;>
    rcases bu with _ | (_ | b) <;>
    simp [performanceRow, metricsRow, specWeightedAverage, oadd] <;>
    ring_nf

/-- Claim C5 (confirmed).  `analyze_program_performance` computes each row's
`performance_score` as the weighted average of the sub-metrics whose source
columns are present — enrollment rate 0.3, satisfaction/10 0.4, success
metric 0.3, budget closeness `1 - |budget_utilization - 1|` 0.2 — with the
present weights renormalized to sum to 1 and the result scaled by 100
(`specWeightedAverage`), and the neutral default 50 when no sub-metric is
available. -/
theorem C5_performance_weighted_average :
    (∀ (er : Option (Option ℚ)) (sat suc : Option ℚ) (bu : Option (Option ℚ)),
      performanceRow er sat suc bu = specWeightedAverage (metricsRow er sat suc bu)) ∧
    (∀ t u, t.enrollment_rate = none → t.budget_utilization = none →
      analyze_program_performance (some t) = some u →
      u.performance_score = some (zip4With
        (fun er sat suc bu => specWeightedAverage (metricsRow er sat suc bu))
        (colRows t.nrows (erCol t)) (colRowsQ t.nrows t.satisfaction_score)
        (colRowsQ t.nrows t.success_metric) (colRows t.nrows (buCol t)))) ∧
    performanceRow none none none none = some 50 := by
  refine ⟨performanceRow_eq_spec, ?_, rfl⟩
  intro t u her hbu h
  have hu : u.performance_score = some (performanceScoreCol
      { t with enrollment_rate := erCol t, budget_utilization := buCol t }) := by
    by_cases hz : t.nrows = 0
    · simp [analyze_program_performance, hz] at h
    · simp [analyze_program_performance, hz] at h
      simp [← h, performTable]
  rw [hu]
  congr 1
  unfold performanceScoreCol
  exact zip4With_congr _ _ performanceRow_eq_spec _ _ _ _

theorem C5_witness :
    ((analyze_program_performance
        (some { nrows := 1,
                capacity := some [10],
                current_enrollment := some [8],
                satisfaction_score := some [9],
                success_metric := some [0.75],
                budget := some [1000],
                expenses := some [1100] })).getD { nrows := 0 }).performance_score =
      some (zip4With
        (fun er sat suc bu => specWeightedAverage (metricsRow er sat suc bu))
        (colRows 1 (erCol { nrows := 1,
                            capacity := some [10],
                            current_enrollment := some [8],
                            satisfaction_score := some [9],
                            success_metric := some [0.75],
                            budget := some [1000],
                            expenses := some [1100] }))
        (colRowsQ 1 (some [9])) (colRowsQ 1 (some [0.75]))
        (colRows 1 (buCol { nrows := 1,
                            capacity := some [10],
                            current_enrollment := some [8],
                            satisfaction_score := some [9],
                            success_metric := some [0.75],
                            budget := some [1000],
                            expenses := some [1100] }))) := by
  rcases hc : analyze_program_performance
      (some { nrows := 1,
              capacity := some [10],
              current_enrollment := some [8],
              satisfaction_score := some [9],
              success_metric := some [0.75],
              budget := some [1000],
              expenses := some [1100] }) with _ | u
  · simp [analyze_program_performance] at hc
  · simpa using C5_performance_weighted_average.2.1 _ u rfl rfl hc

/-- Claim C8 (confirmed).  With a fixed "now", running any of the three scorers
on its own successful output reproduces that output exactly — in particular
every derived column agrees — because each scorer recomputes its derived
columns from source columns it never rewrites. -/
theorem C8_scorers_idempotent :
    (∀ (now : ℤ) (t u : MemberTable),
      calculate_member_engagement now (some t) = .ok (some u) →
      calculate_member_engagement now (some u) = .ok (some u)) ∧
    (∀ (now : ℤ) (t u : PartnershipTable),
      calculate_partnership_effectiveness now (some t) = some u →
      calculate_partnership_effectiveness now (some u) = some u) ∧
    (∀ (t u : ProgramTable),
      analyze_program_performance (some t) = some u →
      analyze_program_performance (some u) = some u) := by
  refine ⟨?_, ?_, ?_⟩
  · intro now t u h
    by_cases hz : t.nrows = 0
    · simp [calculate_member_engagement, hz] at h
    · rcases hmd : t.membership_duration_days with _ | dur
      · simp [calculate_member_engagement, hz, hmd] at h
      · simp [calculate_member_engagement, hz, hmd] at h
        subst h
        have h1 : (engageTable now t dur).membership_duration_days = some dur := by
          simp [engageTable, hmd]
        have h2 : (engageTable now t dur).nrows = t.nrows := rfl
        simp [calculate_member_engagement, h1, h2, hz]
        rfl
  · intro now t u h
    by_cases hz : t.nrows = 0
    · simp [calculate_partnership_effectiveness, hz] at h
    · simp [calculate_partnership_effectiveness, hz] at h
      subst h
      have h2 : (effectTable now t).nrows = t.nrows := rfl
      simp [calculate_partnership_effectiveness, h2, hz]
      rcases hsd : t.start_date with _ | s <;> rcases hed : t.end_date with _ | e <;>
        rcases hv : t.value_contribution with _ | v <;> rcases hc : t.cost with _ | c <;>
        rcases hp : t.performance_rating with _ | p <;> rcases ha : t.alignment_score with _ | a <;>
        simp [effectTable, roiCol, effCol, hsd, hed, hv, hc, hp, ha]
  · intro t u h
    by_cases hz : t.nrows = 0
    · simp [analyze_program_performance, hz] at h
    · simp [analyze_program_performance, hz] at h
      subst h
      have h2 : (performTable t).nrows = t.nrows := rfl
      simp [analyze_program_performance, h2, hz]
      rcases hcap : t.capacity with _ | cap <;> rcases hcur : t.current_enrollment with _ | cur <;>
        rcases hb : t.budget with _ | b <;> rcases hex : t.expenses with _ | ex <;>
        simp [performTable, erCol, buCol, performanceScoreCol, hcap, hcur, hb, hex]

theorem C8_witness :
    calculate_member_engagement 1000
        (some (engageTable 1000
          { nrows := 1, attendance_rate := some [1], satisfaction_score := some [10],
            last_interaction := some [990], membership_duration_days := some [100] } [100])) =
      .ok (some (engageTable 1000
        { nrows := 1, attendance_rate := some [1], satisfaction_score := some [10],
          last_interaction := some [990], membership_duration_days := some [100] } [100])) ∧
    calculate_partnership_effectiveness 0
        (some (effectTable 0 { nrows := 1, performance_rating := some [7] })) =
      some (effectTable 0 { nrows := 1, performance_rating := some [7] }) ∧
    analyze_program_performance
        (some (performTable { nrows := 1, satisfaction_score := some [8] })) =
      some (performTable { nrows := 1, satisfaction_score := some [8] }) :=
  ⟨C8_scorers_idempotent.1 1000
     { nrows := 1, attendance_rate := some [1], satisfaction_score := some [10],
       last_interaction := some [990], membership_duration_days := some [100] } _ rfl,
   C8_scorers_idempotent.2.1 0 { nrows := 1, performance_rating := some [7] } _ rfl,
   C8_scorers_idempotent.2.2 { nrows := 1, satisfaction_score := some [8] } _ rfl⟩

/-- Claim C9 (amended).  Each scorer returns a fresh table: every source column
that does not bear a derived column's name is carried over unchanged into the
output.  (Columns that do bear a derived name — such as a raw
`engagement_level` column — are overwritten; see the counterexample.) -/
theorem C9_raw_columns_preserved :
    (∀ (now : ℤ) (t u : MemberTable),
      calculate_member_engagement now (some t) = .ok (some u) →
      u.nrows = t.nrows ∧ u.member_id = t.member_id ∧ u.name = t.name ∧
      u.membership_type = t.membership_type ∧ u.industry = t.industry ∧
      u.location = t.location ∧ u.last_interaction = t.last_interaction ∧
      u.attendance_rate = t.attendance_rate ∧
      u.satisfaction_score = t.satisfaction_score ∧
      u.membership_duration_days = t.membership_duration_days ∧
      u.fees_paid = t.fees_paid) ∧
    (∀ (now : ℤ) (t u : PartnershipTable),
      calculate_partnership_effectiveness now (some t) = some u →
      u.nrows = t.nrows ∧ u.partner_id = t.partner_id ∧ u.name = t.name ∧
      u.start_date = t.start_date ∧ u.end_date = t.end_date ∧
      u.value_contribution = t.value_contribution ∧ u.cost = t.cost ∧
      u.performance_rating = t.performance_rating ∧
      u.alignment_score = t.alignment_score) ∧
    (∀ (t u : ProgramTable),
      analyze_program_performance (some t) = some u →
      u.nrows = t.nrows ∧ u.program_id = t.program_id ∧ u.name = t.name ∧
      u.capacity = t.capacity ∧ u.current_enrollment = t.current_enrollment ∧
      u.satisfaction_score = t.satisfaction_score ∧
      u.success_metric = t.success_metric ∧ u.budget = t.budget ∧
      u.expenses = t.expenses) := by
  refine ⟨?_, ?_, ?_⟩
  · intro now t u h
    by_cases hz : t.nrows = 0
    · simp [calculate_member_engagement, hz] at h
    · rcases hmd : t.membership_duration_days with _ | dur
      · simp [calculate_member_engagement, hz, hmd] at h
      · simp [calculate_member_engagement, hz, hmd] at h
        subst h
        simp [engageTable, hmd]
  · intro now t u h
    by_cases hz : t.nrows = 0
    · simp [calculate_partnership_effectiveness, hz] at h
    · simp [calculate_partnership_effectiveness, hz] at h
      subst h
      simp [effectTable]
  · intro t u h
    by_cases hz : t.nrows = 0
    · simp [analyze_program_performance, hz] at h
    · simp [analyze_program_performance, hz] at h
      subst h
      simp [performTable]

/-- Claim C9, counterexample.  A raw input column that bears a derived column's
name is rewritten, not preserved: on a one-row table whose raw
`engagement_level` column reads `"Low"`, the scorer's output carries
`engagement_level = "High"` (the bucket of its computed score 80). -/
theorem C9_counterexample :
    calculate_member_engagement 1000
        (some { nrows := 1, attendance_rate := some [1], satisfaction_score := some [10],
                last_interaction := some [990], membership_duration_days := some [100],
                engagement_level := some ["Low"] }) =
      .ok (some (engageTable 1000
        { nrows := 1, attendance_rate := some [1], satisfaction_score := some [10],
          last_interaction := some [990], membership_duration_days := some [100],
          engagement_level := some ["Low"] } [100])) ∧
    (engageTable 1000
      { nrows := 1, attendance_rate := some [1], satisfaction_score := some [10],
        last_interaction := some [990], membership_duration_days := some [100],
        engagement_level := some ["Low"] } [100]).engagement_level = some ["High"] := by
  refine ⟨rfl, ?_⟩
  norm_num [engageTable, scoreCol, recencyCol, loyaltyCol, attCol, satCol, daysCol,
    seriesMax, zip4With, engagementRow, engagement_level_of, round1, round_eq]

theorem C9_witness :
    ((calculate_partnership_effectiveness 3
        (some { nrows := 1, start_date := some [0], end_date := some [2],
                performance_rating := some [7] })).getD { nrows := 0 }).performance_rating =
      some [7] := by
  rcases hc : calculate_partnership_effectiveness 3
      (some { nrows := 1, start_date := some [0], end_date := some [2],
              performance_rating := some [7] }) with _ | u
  · simp [calculate_partnership_effectiveness] at hc
  · simpa using (C9_raw_columns_preserved.2.1 3 _ u hc).2.2.2.2.2.2.2.1

theorem simScores_length (t : MemberTable) (mid : ℕ) :
    (simScores t mid).length = t.nrows := by
  simp [simScores, centeredMatrix, featureMatrix]

theorem similarityRows_cons (i : ℕ) (is' : List ℕ) (n : String) (ns : List String)
    (s : ℚ) (ss : List ℚ) :
    similarityRows (i :: is') (n :: ns) (s :: ss) = ⟨i, n, s⟩ :: similarityRows is' ns ss := by
  simp [similarityRows]

theorem similarityRows_filter_length (mid : ℕ) :
    ∀ (ids : List ℕ) (names : List String) (sims : List ℚ),
      names.length = ids.length → sims.length = ids.length →
      ((similarityRows ids names sims).filter (fun r => r.member_id ≠ mid)).length =
        ids.countP (fun x => decide (x ≠ mid)) := by
  intro ids
  induction ids with
  | nil => intro names sims h1 h2; rfl
  | cons i is' ih =>
    intro names sims h1 h2
    cases names with
    | nil => simp at h1
    | cons n ns =>
      cases sims with
      | nil => simp at h2
      | cons s ss =>
        rw [similarityRows_cons, List.filter_cons, List.countP_cons]
        have hih := ih ns ss (by simpa using h1) (by simpa using h2)
        by_cases hi : i = mid
        · simpa [hi] using hih
        · simpa [hi] using hih

/-- Claim C6 (amended).  When the table carries a `name` column and at least one
usable (and finite) feature column, `find_similar_members` never returns the
target's rows, returns at most `k` rows, returns them sorted descending by
similarity score, and returns all `n` eligible rows (the rows whose
`member_id` differs from the target's) whenever `n ≤ k`. -/
theorem C6_similarity_ranking (t : MemberTable) (mid k : ℕ)
    (ids : List ℕ) (names : List String)
    (hids : t.member_id = some ids) (hnames : t.name = some names)
    (h0 : t.nrows ≠ 0) (hmem : mid ∈ ids)
    (hfeat : hasFeatureColumns t = true) (hnan : simFeatureNaN t = false)
    (res : List SimRow) (h : find_similar_members (some t) mid k = .ok res) :
    (∀ r ∈ res, r.member_id ≠ mid) ∧
    res.length ≤ k ∧
    res.Pairwise (fun a b => b.similarity_score ≤ a.similarity_score) ∧
    (names.length = ids.length → ids.length = t.nrows →
      ids.countP (fun x => decide (x ≠ mid)) ≤ k →
      res.length = ids.countP (fun x => decide (x ≠ mid)) ∧
      res.Perm ((similarityRows ids names (simScores t mid)).filter
        (fun r => r.member_id ≠ mid))) := by
  have hres : res = (rankedRows t ids names mid).take k := by
    simp [find_similar_members, h0, hids, hmem, hfeat, hnan, hnames] at h
    exact h.symm
  have htrans : ∀ a b c : SimRow,
      decide (b.similarity_score ≤ a.similarity_score) = true →
      decide (c.similarity_score ≤ b.similarity_score) = true →
      decide (c.similarity_score ≤ a.similarity_score) = true := by
    intro a b c hab hbc
    simp only [decide_eq_true_eq] at hab hbc ⊢
    exact le_trans hbc hab
  have htotal : ∀ a b : SimRow,
      (decide (b.similarity_score ≤ a.similarity_score) ||
        decide (a.similarity_score ≤ b.similarity_score)) = true := by
    intro a b
    simpa using le_total b.similarity_score a.similarity_score
  have hperm := List.mergeSort_perm
    ((similarityRows ids names (simScores t mid)).filter (fun r => r.member_id ≠ mid))
    (fun a b => decide (b.similarity_score ≤ a.similarity_score))
  refine ⟨?_, ?_, ?_, ?_⟩
  · intro r hr
    rw [hres] at hr
    have h1 : r ∈ (rankedRows t ids names mid) := List.take_subset _ _ hr
    have h2 : r ∈ (similarityRows ids names (simScores t mid)).filter
        (fun r => r.member_id ≠ mid) := (hperm.mem_iff).mp h1
    simpa using List.of_mem_filter h2
  · rw [hres]
    simp [List.length_take]
  · have hs := List.sorted_mergeSort htrans htotal
      ((similarityRows ids names (simScores t mid)).filter (fun r => r.member_id ≠ mid))
    have hsub : res.Sublist (rankedRows t ids names mid) := by
      rw [hres]
      exact List.take_sublist k _
    have hp : res.Pairwise
        (fun a b => decide (b.similarity_score ≤ a.similarity_score) = true) :=
      (hs.sublist hsub)
    exact hp.imp (fun hab => by simpa using hab)
  · intro hl1 hl2 hk
    have hE : ((similarityRows ids names (simScores t mid)).filter
        (fun r => r.member_id ≠ mid)).length = ids.countP (fun x => decide (x ≠ mid)) :=
      similarityRows_filter_length mid ids names (simScores t mid) hl1
        (by rw [simScores_length, hl2])
    have hms : (rankedRows t ids names mid).length =
        ids.countP (fun x => decide (x ≠ mid)) := by
      rw [rankedRows, hperm.length_eq, hE]
    have htk : (rankedRows t ids names mid).take k = rankedRows t ids names mid :=
      List.take_of_length_le (by rw [hms]; exact hk)
    constructor
    · rw [hres, htk, hms]
    · rw [hres, htk]
      exact hperm

/-- Claim C6, counterexample.  On a table whose only columns are `member_id` and
`name` (no usable feature column), the ranker returns an empty frame even
though one eligible row exists and `k = 5`: the claim's "returns all `n`
eligible rows when `n ≤ k`" fails without the feature-column proviso. -/
theorem C6_counterexample :
    find_similar_members
        (some { nrows := 2, member_id := some [1, 2], name := some ["a", "b"] }) 1 5 =
      .ok [] ∧
    [1, 2].countP (fun x => decide (x ≠ 1)) = 1 := ⟨rfl, rfl⟩

theorem C6_witness :
    ((rankedRows { nrows := 2, member_id := some [1, 2], name := some ["a", "b"],
                   satisfaction_score := some [7, 9] } [1, 2] ["a", "b"] 1).take 5).length =
      [1, 2].countP (fun x => decide (x ≠ 1)) := by
  have h := C6_similarity_ranking
    { nrows := 2, member_id := some [1, 2], name := some ["a", "b"],
      satisfaction_score := some [7, 9] } 1 5 [1, 2] ["a", "b"] rfl rfl
    (by norm_num) (by decide) rfl rfl _ rfl
  exact (h.2.2.2 rfl rfl (by decide)).1

/-- Claim C7 (confirmed).  Every scorer returns `None` without raising on a
`None` or empty table; and the similarity ranker returns an empty frame
without raising on a `None` table, an empty table, a target identifier absent
from the `member_id` column, or (when `member_id` is present) a table with no
usable feature column. -/
theorem C7_empty_and_degenerate_inputs :
    (∀ now : ℤ, calculate_member_engagement now none = .ok none) ∧
    (∀ (now : ℤ) (t : MemberTable), t.nrows = 0 →
      calculate_member_engagement now (some t) = .ok none) ∧
    (∀ now : ℤ, calculate_partnership_effectiveness now none = none) ∧
    (∀ (now : ℤ) (t : PartnershipTable), t.nrows = 0 →
      calculate_partnership_effectiveness now (some t) = none) ∧
    analyze_program_performance none = none ∧
    (∀ t : ProgramTable, t.nrows = 0 → analyze_program_performance (some t) = none) ∧
    (∀ mid k : ℕ, find_similar_members none mid k = .ok []) ∧
    (∀ (t : MemberTable) (mid k : ℕ), t.nrows = 0 →
      find_similar_members (some t) mid k = .ok []) ∧
    (∀ (t : MemberTable) (mid k : ℕ) (ids : List ℕ), t.member_id = some ids →
      mid ∉ ids → find_similar_members (some t) mid k = .ok []) ∧
    (∀ (t : MemberTable) (mid k : ℕ) (ids : List ℕ), t.member_id = some ids →
      hasFeatureColumns t = false → find_similar_members (some t) mid k = .ok []) := by
  refine ⟨fun _ => rfl, ?_, fun _ => rfl, ?_, rfl, ?_, fun _ _ => rfl, ?_, ?_, ?_⟩
  · intro now t hz
    simp [calculate_member_engagement, hz]
  · intro now t hz
    simp [calculate_partnership_effectiveness, hz]
  · intro t hz
    simp [analyze_program_performance, hz]
  · intro t mid k hz
    simp [find_similar_members, hz]
  · intro t mid k ids hids hmem
    by_cases hz : t.nrows = 0
    · simp [find_similar_members, hz]
    · simp [find_similar_members, hz, hids, hmem]
  · intro t mid k ids hids hfeat
    by_cases hz : t.nrows = 0
    · simp [find_similar_members, hz]
    · by_cases hmem : mid ∈ ids
      · simp [find_similar_members, hz, hids, hmem, hfeat]
      · simp [find_similar_members, hz, hids, hmem]

theorem C7_witness :
    calculate_member_engagement 0 (some { nrows := 0 }) = .ok none ∧
    calculate_partnership_effectiveness 0 (some { nrows := 0 }) = none ∧
    analyze_program_performance (some { nrows := 0 }) = none ∧
    find_similar_members (some { nrows := 0 }) 1 5 = .ok [] ∧
    find_similar_members
      (some { nrows := 1, member_id := some [2], satisfaction_score := some [7] }) 1 5 =
      .ok [] ∧
    find_similar_members
      (some { nrows := 1, member_id := some [1], name := some ["a"] }) 1 5 = .ok [] :=
  ⟨C7_empty_and_degenerate_inputs.2.1 0 { nrows := 0 } rfl,
   C7_empty_and_degenerate_inputs.2.2.2.1 0 { nrows := 0 } rfl,
   C7_empty_and_degenerate_inputs.2.2.2.2.2.1 { nrows := 0 } rfl,
   C7_empty_and_degenerate_inputs.2.2.2.2.2.2.2.1 { nrows := 0 } 1 5 rfl,
   C7_empty_and_degenerate_inputs.2.2.2.2.2.2.2.2.1
     { nrows := 1, member_id := some [2], satisfaction_score := some [7] } 1 5 [2] rfl
     (by decide),
   C7_empty_and_degenerate_inputs.2.2.2.2.2.2.2.2.2
     { nrows := 1, member_id := some [1], name := some ["a"] } 1 5 [1] rfl rfl⟩

/-- Claim C10 (confirmed).  On a non-empty table whose `member_id` column
contains the target and which has at least one usable feature column but no
`name` column, `find_similar_members` raises instead of returning: a
`ValueError` when a non-finite feature cell aborts the similarity computation
first, and otherwise the `KeyError` from the `name` lookup at line 447. -/
theorem C10_missing_name_column_raises (t : MemberTable) (mid k : ℕ) (ids : List ℕ)
    (h0 : t.nrows ≠ 0) (hids : t.member_id = some ids) (hmem : mid ∈ ids)
    (hfeat : hasFeatureColumns t = true) (hname : t.name = none) :
    (∃ e, find_similar_members (some t) mid k = .error e) ∧
    (simFeatureNaN t = false →
      find_similar_members (some t) mid k = .error "KeyError: name") := by
  constructor
  · by_cases hnan : simFeatureNaN t = true
    · exact ⟨"ValueError: Input contains NaN",
        by simp [find_similar_members, h0, hids, hmem, hfeat, hnan, hname]⟩
    · exact ⟨"KeyError: name",
        by simp [find_similar_members, h0, hids, hmem, hfeat,
          Bool.not_eq_true _ ▸ hnan, hname]⟩
  · intro hnan
    simp [find_similar_members, h0, hids, hmem, hfeat, hnan, hname]

theorem C10_witness :
    find_similar_members
        (some { nrows := 1, member_id := some [1], satisfaction_score := some [7] }) 1 5 =
      .error "KeyError: name" :=
  (C10_missing_name_column_raises
    { nrows := 1, member_id := some [1], satisfaction_score := some [7] } 1 5 [1]
    (by norm_num) rfl (by decide) rfl rfl).2 rfl
